import Mathlib

/-!
Verification of the reqwest-graphql client core: a shallow embedding of
`src/client.rs` and `src/error.rs` (response classification and the
GraphQL error model), with theorems about the classification of server
responses, error rendering, header validation at construction, and the
outbound request-body round trip.

JSON values are modelled by an inductive `Json`; serde deserialization of
the response shapes (`GraphQLResponse`, `GraphQLErrorMessage`, ...) is
modelled by total/optional parsers that mirror serde's untagged-enum
semantics: variants are tried in declaration order, `Option` fields treat
a missing key and JSON `null` both as `none`, unknown object fields are
ignored, and a failing field parse fails the whole variant.
-/

namespace ReqwestGraphQL

/-- JSON values (model of `serde_json::Value`; numbers restricted to
integers, which covers every payload this development needs). -/
inductive Json where
  | null
  | bool (b : Bool)
  | num (n : Int)
  | str (s : String)
  | arr (elems : List Json)
  | obj (fields : List (String × Json))

/-- Key lookup in a JSON object's field list (model of map indexing). -/
def jsonLookup (key : String) : List (String × Json) → Option Json
  | [] => none
  | (k, v) :: rest => if k = key then some v else jsonLookup key rest

/-- Escaping of one character inside a JSON string literal (model of
serde_json's compact printer, restricted to the common escapes). -/
def escapeChar (c : Char) : String :=
  if c = '"' then "\\\""
  else if c = '\\' then "\\\\"
  else if c = '\n' then "\\n"
  else if c = '\t' then "\\t"
  else if c = '\r' then "\\r"
  else String.singleton c

/-- Escape every character of a JSON string literal body. -/
def escapeString (s : String) : String :=
  String.join (s.data.map escapeChar)

mutual

/-- Compact textual rendering of a JSON value (model of
`serde_json::Value::to_string`), used by `GraphQLErrorMessage::message`
for unconventional errors. -/
def Json.render : Json → String
  | .null => "null"
  | .bool true => "true"
  | .bool false => "false"
  | .num n => toString n
  | .str s => "\"" ++ escapeString s ++ "\""
  | .arr es => "[" ++ String.intercalate "," (Json.renderList es) ++ "]"
  | .obj fs => "\x7b" ++ String.intercalate "," (Json.renderFields fs) ++ "\x7d"

/-- Render each element of a JSON array. -/
def Json.renderList : List Json → List String
  | [] => []
  | j :: js => j.render :: Json.renderList js

/-- Render each `"key":value` pair of a JSON object. -/
def Json.renderFields : List (String × Json) → List String
  | [] => []
  | (k, v) :: fs => ("\"" ++ escapeString k ++ "\":" ++ v.render) :: Json.renderFields fs

end

/-- `src/error.rs`: `GraphQLErrorLocation { line: u32, column: u32 }`. -/
structure GraphQLErrorLocation where
  line : Nat
  column : Nat

/-- `src/error.rs`: untagged `GraphQLErrorPathParam = String(String) | Number(u32)`. -/
inductive GraphQLErrorPathParam where
  | string (s : String)
  | number (n : Nat)

/-- `src/error.rs`: untagged
`GraphQLErrorMessage = ConventionalError { message, locations, extensions, path } | UnconventionalError(Value)`. -/
inductive GraphQLErrorMessage where
  | conventionalError (message : String) (locations : Option (List GraphQLErrorLocation))
      (extensions : Option Json) (path : Option (List GraphQLErrorPathParam))
  | unconventionalError (value : Json)

/-- `src/error.rs`: `GraphQLErrorMessage::message`: the `message` field of a
conventional error, or the textual form of the JSON value of an
unconventional one. -/
def GraphQLErrorMessage.message : GraphQLErrorMessage → String
  | .conventionalError m _ _ _ => m
  | .unconventionalError v => v.render

/-- `src/error.rs`: `GraphQLError { message: String, json: Option<Vec<GraphQLErrorMessage>> }`. -/
structure GraphQLError where
  message : String
  json : Option (List GraphQLErrorMessage)

/-- `src/error.rs`: `FromStr for GraphQLError` (infallible, so we model the
`Ok` payload directly): `message = s`, `json = none`. -/
def GraphQLError.from_str (s : String) : GraphQLError :=
  { message := s, json := none }

/-- `src/error.rs`: `GraphQLError::from_json`: fixed summary message and
`json = some list`. -/
def GraphQLError.from_json (json : List GraphQLErrorMessage) : GraphQLError :=
  { message := "Look at json field for more details", json := some json }

/-- `src/error.rs`: the shared `format` function behind Display and Debug:
a `writeln!` of `"\nGQLClient Error: <message>"`, then — when `json` is
present — one `writeln!` of `"Message: <text>"` per contained error. -/
def format (err : GraphQLError) : String :=
  match err.json with
  | none => "\nGQLClient Error: " ++ err.message ++ "\n"
  | some errors =>
    errors.foldl (fun acc e => acc ++ ("Message: " ++ e.message ++ "\n"))
      ("\nGQLClient Error: " ++ err.message ++ "\n")

/-- `src/error.rs`: `impl fmt::Display for GraphQLError` delegates to `format`. -/
def displayFmt (e : GraphQLError) : String := format e

/-- `src/error.rs`: `impl fmt::Debug for GraphQLError` delegates to `format`. -/
def debugFmt (e : GraphQLError) : String := format e

/-- serde: deserializing `u32` from a JSON value: an integer in `[0, 2^32)`. -/
def parseU32 (j : Json) : Option Nat :=
  match j with
  | .num n => if 0 ≤ n ∧ n < 4294967296 then some n.toNat else none
  | _ => none

/-- serde: a `GraphQLErrorLocation` needs required `line` and `column` u32 fields. -/
def parseLocation (j : Json) : Option GraphQLErrorLocation :=
  match j with
  | .obj fields => do
    let lj ← jsonLookup "line" fields
    let l ← parseU32 lj
    let cj ← jsonLookup "column" fields
    let c ← parseU32 cj
    pure { line := l, column := c }
  | _ => none

/-- serde untagged `GraphQLErrorPathParam`: try `String`, then `Number(u32)`. -/
def parsePathParam (j : Json) : Option GraphQLErrorPathParam :=
  match j with
  | .str s => some (.string s)
  | .num n => if 0 ≤ n ∧ n < 4294967296 then some (.number n.toNat) else none
  | _ => none

/-- Parse every element of a list, failing if any element fails
(model of `Vec<T>` deserialization). -/
def parseListWith {α : Type} (p : Json → Option α) : List Json → Option (List α)
  | [] => some []
  | j :: js => do
    let a ← p j
    let as ← parseListWith p js
    pure (a :: as)

/-- serde: an `Option<T>` struct field: missing key or JSON `null` is `none`;
otherwise the value must parse, else the whole struct fails. -/
def parseOptionalField {α : Type} (p : Json → Option α)
    (fields : List (String × Json)) (key : String) : Option (Option α) :=
  match jsonLookup key fields with
  | none => some none
  | some .null => some none
  | some v => (p v).map some

/-- serde: the `ConventionalError` variant of `GraphQLErrorMessage`:
required string `message`; optional `locations`, `extensions`, `path`. -/
def parseConventionalError (j : Json) : Option GraphQLErrorMessage :=
  match j with
  | .obj fields => do
    let mj ← jsonLookup "message" fields
    let msg ← (match mj with | .str s => some s | _ => none)
    let locations ← parseOptionalField
      (fun v => match v with | .arr es => parseListWith parseLocation es | _ => none) fields "locations"
    let extensions ← parseOptionalField (fun v => some v) fields "extensions"
    let path ← parseOptionalField
      (fun v => match v with | .arr es => parseListWith parsePathParam es | _ => none) fields "path"
    pure (.conventionalError msg locations extensions path)
  | _ => none

/-- serde untagged `GraphQLErrorMessage`: try `ConventionalError` first,
fall back to `UnconventionalError` wrapping the raw value (never fails). -/
def parseGraphQLErrorMessage (j : Json) : GraphQLErrorMessage :=
  match parseConventionalError j with
  | some m => m
  | none => .unconventionalError j

/-- serde: `Vec<GraphQLErrorMessage>`: the value must be a JSON array; each
element then parses unconditionally via the untagged fallback. -/
def parseErrorList (j : Json) : Option (List GraphQLErrorMessage) :=
  match j with
  | .arr es => some (es.map parseGraphQLErrorMessage)
  | _ => none

/-- `src/client.rs`: untagged
`GraphQLResponse<T> = ConventionResponse { data: Option<T>, errors: Option<Vec<GraphQLErrorMessage>> } | UnconventionalResponse(Value)`. -/
inductive GraphQLResponse (T : Type) where
  | conventionResponse (data : Option T) (errors : Option (List GraphQLErrorMessage))
  | unconventionalResponse (value : Json)

/-- serde: the `ConventionResponse` variant: a JSON object whose optional
`data` field parses as `T` and optional `errors` field as the error list;
unknown fields are ignored. -/
def parseConventionResponse {T : Type} (parseT : Json → Option T) (j : Json) :
    Option (Option T × Option (List GraphQLErrorMessage)) :=
  match j with
  | .obj fields => do
    let data ← parseOptionalField parseT fields "data"
    let errors ← parseOptionalField parseErrorList fields "errors"
    pure (data, errors)
  | _ => none

/-- serde untagged `GraphQLResponse<T>`: try `ConventionResponse` first,
fall back to `UnconventionalResponse` wrapping the raw JSON value. -/
def decodeGraphQLResponse {T : Type} (parseT : Json → Option T) (j : Json) :
    GraphQLResponse T :=
  match parseConventionResponse parseT j with
  | some (d, e) => .conventionResponse d e
  | none => .unconventionalResponse j

/-- Outcome of the response-classification `match` in `query_with_vars`:
`ok` and `err` are the two `Result` sides; `panicked` models the
`data.unwrap()` panic on a missing `data`. -/
inductive QueryOutcome (T : Type) where
  | ok (value : T)
  | err (error : GraphQLError)
  | panicked

/-- `src/client.rs` lines 82-93, the response handling of
`GQLClient::query_with_vars`: `body = none` models a response body whose
deserialization into `GraphQLResponse` failed entirely (not valid JSON);
otherwise the decoded response is matched exactly as in the source:
convention with no errors returns `data.unwrap()` (panicking when `data`
is absent), convention with errors fails via `from_json`, and the
unconventional fallback fails with the fixed message wrapping the value. -/
def query_with_vars {T : Type} (parseT : Json → Option T) (body : Option Json) :
    QueryOutcome T :=
  match body with
  | none => .err (GraphQLError.from_str "Failed to parse response")
  | some j =>
    match decodeGraphQLResponse parseT j with
    | .conventionResponse data none =>
      match data with
      | some d => .ok d
      | none => .panicked
    | .conventionResponse _ (some errors) => .err (GraphQLError.from_json errors)
    | .unconventionalResponse value =>
      .err { message := "Couldn't parse the result.",
             json := some [.unconventionalError value] }

/-- Modelled from the spec: validity of an HTTP header name per the wire
format rules (the check performed by `HeaderName::from_str`, which lives in
the external `http` crate, not under this repository's sources): a
non-empty string of token characters
(alphanumerics and `! # $ % & ' * + - . ^ _ \x60 | ~`). -/
def isTokenChar (c : Char) : Bool :=
  let n := c.toNat
  (48 ≤ n && n ≤ 57) || (65 ≤ n && n ≤ 90) || (97 ≤ n && n ≤ 122) ||
  n == 33 || n == 35 || n == 36 || n == 37 || n == 38 || n == 39 ||
  n == 42 || n == 43 || n == 45 || n == 46 || n == 94 || n == 95 ||
  n == 96 || n == 124 || n == 126

/-- Modelled from the spec: a valid header name is non-empty and made of
token characters only. -/
def isValidHeaderName (s : String) : Bool :=
  !s.data.isEmpty && s.data.all isTokenChar

/-- Modelled from the spec: validity of an HTTP header value per the wire
format rules (the check performed by `HeaderValue::from_str`, external
`http` crate): no control character — every character is horizontal tab or
has code at least 32 and distinct from 127 (DEL). -/
def isValidHeaderValue (s : String) : Bool :=
  s.data.all fun c => c == '\t' || (32 ≤ c.toNat && c.toNat != 127)

/-- ASCII lowercasing of one character (`HeaderName` normalizes names to
lowercase). -/
def asciiLower (c : Char) : Char :=
  if 65 ≤ c.toNat && c.toNat ≤ 90 then Char.ofNat (c.toNat + 32) else c

/-- ASCII lowercasing of a header name. -/
def lowerAscii (s : String) : String :=
  String.mk (s.data.map asciiLower)

/-- `HeaderMap::insert`: replace the value stored under an equivalent key,
or append the pair. Keys are stored lowercased (case-insensitive map). -/
def headerMapInsert (k v : String) : List (String × String) → List (String × String)
  | [] => [(k, v)]
  | (k0, v0) :: rest =>
    if k0 = k then (k, v) :: rest else (k0, v0) :: headerMapInsert k v rest

/-- `src/client.rs`: `GQLClient { endpoint, header_map }` (the header map
modelled as an association list with lowercased keys). -/
structure GQLClient where
  endpoint : String
  header_map : List (String × String)

/-- `src/client.rs`: `GQLClient::new`: endpoint only, empty header map. -/
def GQLClient.new (endpoint : String) : GQLClient :=
  { endpoint := endpoint, header_map := [] }

/-- The loop body of `new_with_headers`: for each pair, `HeaderName::from_str`
and `HeaderValue::from_str` are unwrapped — an invalid name or value panics
(modelled as `none`) — and the valid pair is inserted into the map. -/
def buildHeaderMap (acc : List (String × String)) :
    List (String × String) → Option (List (String × String))
  | [] => some acc
  | (k, v) :: rest =>
    if isValidHeaderName k && isValidHeaderValue v then
      buildHeaderMap (headerMapInsert (lowerAscii k) v acc) rest
    else none

/-- `src/client.rs`: `GQLClient::new_with_headers`: validate and insert every
supplied header; `none` models the construction panicking on the first
invalid name or value. -/
def GQLClient.new_with_headers (endpoint : String)
    (headers : List (String × String)) : Option GQLClient :=
  (buildHeaderMap [] headers).map fun m => { endpoint := endpoint, header_map := m }

/-- `src/client.rs`: `RequestBody { query: &str, variables: T }`; the
variables are modelled by their serialized JSON form. -/
structure RequestBody where
  query : String
  «variables» : Json

/-- serde: `#[derive(Serialize)]` on `RequestBody` emits the JSON object
with fields in declaration order: `\x7b"query": ..., "variables": ...\x7d`. -/
def serializeRequestBody (b : RequestBody) : Json :=
  .obj [("query", .str b.query), ("variables", b.«variables»)]

/-- Modelled from the spec: the inverse reading of an emitted request body
used by the round-trip property (`RequestBody` only derives `Serialize` in
the source, so the deserializer follows the spec's wire description:
a JSON object with a string `query` field and a `variables` field). -/
def deserializeRequestBody (j : Json) : Option RequestBody :=
  match j with
  | .obj fields => do
    let qj ← jsonLookup "query" fields
    let q ← (match qj with | .str s => some s | _ => none)
    let v ← jsonLookup "variables" fields
    pure { query := q, «variables» := v }
  | _ => none

/-- The characters of a string before its first newline (used to speak of
the first line of a rendering). -/
def takeUntilNL : List Char → List Char
  | [] => []
  | c :: cs => if c = '\n' then [] else c :: takeUntilNL cs

/-- The first line of a string: everything before the first newline. -/
def firstLine (s : String) : String :=
  String.mk (takeUntilNL s.data)

/-- Concatenation of a list of strings, line by line. -/
def strConcat : List String → String
  | [] => ""
  | s :: ss => s ++ strConcat ss

/-- A typed response payload used to exercise the generic decoding:
the caller-side type for the body `\x7b"x": 1\x7d`. -/
structure XVal where
  x : Int

/-- serde-style deserializer for `XVal`: an object with a required integer
field `x`. -/
def parseXVal (j : Json) : Option XVal :=
  match j with
  | .obj fields => do
    let xj ← jsonLookup "x" fields
    match xj with
    | .num n => pure { x := n }
    | _ => none
  | _ => none

/-- Concrete conventional error payload `\x7b"errors": [\x7b"message": "boom"\x7d]\x7d`. -/
def jBoom : Json := .obj [("errors", .arr [.obj [("message", .str "boom")]])]

/-- The error list `jBoom` decodes to. -/
def msgsBoom : List GraphQLErrorMessage := [.conventionalError "boom" none none none]

/-- Concrete success payload `\x7b"data": \x7b"x": 1\x7d\x7d`. -/
def jDataX1 : Json := .obj [("data", .obj [("x", .num 1)])]

/-- Concrete payload `\x7b"data": \x7b"x": 1\x7d, "errors": []\x7d`: data present
together with an empty errors list. -/
def jDataErrorsEmpty : Json :=
  .obj [("data", .obj [("x", .num 1)]), ("errors", .arr [])]

/-- The fold in `format` appends one `"Message: <text>\n"` chunk per error
to the accumulator, in list order. -/
theorem format_foldl_eq (l : List GraphQLErrorMessage) (init : String) :
    l.foldl (fun acc e => acc ++ ("Message: " ++ e.message ++ "\n")) init =
      init ++ strConcat (l.map fun e => "Message: " ++ e.message ++ "\n") := by
  induction l generalizing init with
  | nil => simp [strConcat, String.append_empty]
  | cons e rest ih =>
    simp only [List.foldl_cons, List.map_cons, strConcat]
    rw [ih, String.append_assoc]

/-- If any supplied header pair has an invalid name or value, the
construction loop hits its `unwrap` and no header map is produced,
whatever has been accumulated so far. -/
theorem buildHeaderMap_invalid_none (headers : List (String × String))
    (h : headers.any
      (fun kv => !(isValidHeaderName kv.1 && isValidHeaderValue kv.2)) = true) :
    ∀ acc, buildHeaderMap acc headers = none := by
  induction headers with
  | nil => simp at h
  | cons kv rest ih =>
    intro acc
    obtain ⟨k, v⟩ := kv
    rw [List.any_cons] at h
    by_cases hv : (isValidHeaderName k && isValidHeaderValue v) = true
    · rw [hv, Bool.not_true, Bool.false_or] at h
      simpa [buildHeaderMap, hv] using ih h _
    · simp [buildHeaderMap, Bool.eq_false_iff.mpr hv]

/-- C1: a response decoding as a ConventionResponse whose `errors` field is
`some list` makes `query_with_vars` fail with `GraphQLError::from_json list`:
the error's message is exactly "Look at json field for more details" and its
`json` field carries the list unchanged. -/
theorem convention_errors_some_fails_with_from_json {T : Type}
    (parseT : Json → Option T) (j : Json) (d : Option T)
    (list : List GraphQLErrorMessage)
    (h : decodeGraphQLResponse parseT j = .conventionResponse d (some list)) :
    query_with_vars parseT (some j) = .err (GraphQLError.from_json list) ∧
    (GraphQLError.from_json list).message = "Look at json field for more details" ∧
    (GraphQLError.from_json list).json = some list := by
  refine ⟨?_, rfl, rfl⟩
  simp only [query_with_vars, h]

/-- Witness for C1 at the payload `\x7b"errors": [\x7b"message": "boom"\x7d]\x7d`. -/
theorem convention_errors_some_fails_with_from_json_witness :
    query_with_vars (T := Json) some (some jBoom) =
      .err (GraphQLError.from_json msgsBoom) ∧
    (GraphQLError.from_json msgsBoom).message = "Look at json field for more details" ∧
    (GraphQLError.from_json msgsBoom).json = some msgsBoom :=
  convention_errors_some_fails_with_from_json (T := Json) some jBoom none msgsBoom rfl

/-- C2: a response decoding as a ConventionResponse with no `errors` and
`data = some v` makes `query_with_vars` succeed with exactly `v`. -/
theorem convention_no_errors_returns_data {T : Type}
    (parseT : Json → Option T) (j : Json) (v : T)
    (h : decodeGraphQLResponse parseT j = .conventionResponse (some v) none) :
    query_with_vars parseT (some j) = .ok v := by
  simp only [query_with_vars, h]

/-- Witness for C2: the payload `\x7b"data": \x7b"x": 1\x7d\x7d` yields the typed
value decoded from `\x7b"x": 1\x7d`. -/
theorem convention_no_errors_returns_data_witness :
    query_with_vars parseXVal (some jDataX1) = .ok { x := 1 } :=
  convention_no_errors_returns_data parseXVal jDataX1 { x := 1 } rfl

/-- C3: a response decoding as an UnconventionalResponse carrying `v` makes
`query_with_vars` fail with message exactly "Couldn't parse the result." and
`json` a one-element list wrapping `v` unchanged. -/
theorem unconventional_fails_with_fixed_message {T : Type}
    (parseT : Json → Option T) (j v : Json)
    (h : decodeGraphQLResponse parseT j = .unconventionalResponse v) :
    query_with_vars parseT (some j) =
      .err { message := "Couldn't parse the result.",
             json := some [.unconventionalError v] } := by
  simp only [query_with_vars, h]

/-- Witness for C3 at the bare JSON array `[1,2,3]`. -/
theorem unconventional_fails_with_fixed_message_witness :
    query_with_vars (T := Json) some (some (Json.arr [.num 1, .num 2, .num 3])) =
      .err { message := "Couldn't parse the result.",
             json := some [.unconventionalError (Json.arr [.num 1, .num 2, .num 3])] } :=
  unconventional_fails_with_fixed_message (T := Json) some
    (Json.arr [.num 1, .num 2, .num 3]) (Json.arr [.num 1, .num 2, .num 3]) rfl

/-- C4: a response decoding as a ConventionResponse with neither errors nor
data drives `query_with_vars` into `data.unwrap()` on `None`: the call
panics instead of returning any value or error. -/
theorem missing_data_panics {T : Type} (parseT : Json → Option T) (j : Json)
    (h : decodeGraphQLResponse parseT j = .conventionResponse none none) :
    query_with_vars parseT (some j) = .panicked := by
  simp only [query_with_vars, h]

/-- Witness for C4 at the empty-object payload `\x7b\x7d`. -/
theorem missing_data_panics_witness :
    query_with_vars parseXVal (some (Json.obj [])) = .panicked :=
  missing_data_panics parseXVal (Json.obj []) rfl

/-- C5: when the body fails to deserialize into a GraphQLResponse at all,
`query_with_vars` returns `GraphQLError::from_str "Failed to parse response"`:
message exactly "Failed to parse response" and no structured json. -/
theorem parse_failure_returns_from_str {T : Type} (parseT : Json → Option T) :
    query_with_vars parseT none =
      .err (GraphQLError.from_str "Failed to parse response") ∧
    (GraphQLError.from_str "Failed to parse response").message =
      "Failed to parse response" ∧
    (GraphQLError.from_str "Failed to parse response").json = none :=
  ⟨rfl, rfl, rfl⟩

/-- C6 counterexample: the rendering starts with a newline, so its first
line is empty, not `"GQLClient Error: <message>"`: shown at the error built
from the string "oops". -/
theorem render_first_line_counterexample :
    firstLine (format (GraphQLError.from_str "oops")) ≠
      "GQLClient Error: " ++ (GraphQLError.from_str "oops").message := by
  decide

/-- C6 amended: the rendering is a leading newline (an empty first line),
then the line `"GQLClient Error: <message>"`, then — when `json` is
present — one line `"Message: <text>"` per contained error in list order,
where `<text>` is the conventional error's message field or the JSON
value's textual form; nothing else. -/
theorem render_structure_amended (e : GraphQLError) :
    format e = "\n" ++ "GQLClient Error: " ++ e.message ++ "\n" ++
      strConcat ((e.json.getD []).map fun m => "Message: " ++ m.message ++ "\n") := by
  have hlit : ("\n" ++ "GQLClient Error: " : String) = "\nGQLClient Error: " := rfl
  obtain ⟨msg, js⟩ := e
  cases js with
  | none =>
    have h0 : strConcat (((none : Option (List GraphQLErrorMessage)).getD []).map
        fun m => "Message: " ++ m.message ++ "\n") = "" := rfl
    rw [h0, String.append_empty, hlit]
    rfl
  | some l =>
    have hf : format { message := msg, json := some l } =
        l.foldl (fun acc e => acc ++ ("Message: " ++ e.message ++ "\n"))
          ("\nGQLClient Error: " ++ msg ++ "\n") := rfl
    rw [hf, format_foldl_eq, hlit, Option.getD_some]

/-- C7: constructing a client through `new_with_headers` with any header
pair whose name or value is not a valid HTTP header panics during
construction: no client is returned and no header is silently dropped. -/
theorem new_with_headers_invalid_panics (endpoint : String)
    (headers : List (String × String))
    (h : headers.any
      (fun kv => !(isValidHeaderName kv.1 && isValidHeaderValue kv.2)) = true) :
    GQLClient.new_with_headers endpoint headers = none := by
  unfold GQLClient.new_with_headers
  rw [buildHeaderMap_invalid_none headers h []]
  rfl

/-- Witness for C7: a header value containing the control character
`\x01` aborts construction. -/
theorem new_with_headers_invalid_panics_witness :
    GQLClient.new_with_headers "https://example.com/graphql"
      [("Authorization", "bad\x01value")] = none :=
  new_with_headers_invalid_panics "https://example.com/graphql"
    [("Authorization", "bad\x01value")] (by decide)

/-- C8: the emitted request body is the JSON object
`\x7b"query": queryText, "variables": serialized variables\x7d`, and reading it
back yields exactly the original pair (round trip of the outbound payload). -/
theorem request_body_roundtrip (q : String) (v : Json) :
    serializeRequestBody { query := q, «variables» := v } =
      .obj [("query", .str q), ("variables", v)] ∧
    deserializeRequestBody (serializeRequestBody { query := q, «variables» := v }) =
      some { query := q, «variables» := v } :=
  ⟨rfl, rfl⟩

/-- C9: the debug and display representations of any GraphQLError are the
same string: both delegate to `format`. -/
theorem display_debug_agree (e : GraphQLError) : displayFmt e = debugFmt e := rfl

/-- C10: a response decoding as a ConventionResponse whose `errors` field
is `some []` fails with `json = some []` — the errors key takes precedence
over any present data, which is discarded — and the rendering is the
header output alone, with zero "Message:" lines. -/
theorem empty_errors_list_precedence {T : Type}
    (parseT : Json → Option T) (j : Json) (d : Option T)
    (h : decodeGraphQLResponse parseT j = .conventionResponse d (some [])) :
    query_with_vars parseT (some j) = .err (GraphQLError.from_json []) ∧
    (GraphQLError.from_json []).json = some ([] : List GraphQLErrorMessage) ∧
    format (GraphQLError.from_json []) =
      "\nGQLClient Error: Look at json field for more details\n" := by
  refine ⟨?_, rfl, rfl⟩
  simp only [query_with_vars, h]

/-- Witness for C10 at `\x7b"data": \x7b"x": 1\x7d, "errors": []\x7d`: the data is
present yet discarded. -/
theorem empty_errors_list_precedence_witness :
    query_with_vars (T := Json) some (some jDataErrorsEmpty) =
      .err (GraphQLError.from_json []) ∧
    (GraphQLError.from_json []).json = some ([] : List GraphQLErrorMessage) ∧
    format (GraphQLError.from_json []) =
      "\nGQLClient Error: Look at json field for more details\n" :=
  empty_errors_list_precedence (T := Json) some jDataErrorsEmpty
    (some (.obj [("x", .num 1)])) rfl

end ReqwestGraphQL
